import Mathlib

/-!
# Shallow embedding of the safe-agent decision pipeline

This file embeds, in Lean, the per-change approval state machine of
`src/safe_agent/agent.py` (`SafeAgent._preview_and_approve` plus the loop in
`SafeAgent.run`) and of `src/safe_agent/diff_gate.py` (the per-change loop of
`DiffGateRunner.run`), together with the path-safety resolver, the git
name-status line parser of `DiffGateRunner._collect_diff_changes`, the
content reader `DiffGateRunner._read_content`, and the builtin policy
construction of `SafeAgent._init_governance`.

External collaborators (the risk analyzer, the policy evaluator, the
prompt-injection scanner, the interactive confirmation prompt, and filesystem
canonicalization) are modelled as per-change oracle inputs: the engine only
consumes their answers, exactly as the Python code consumes the objects they
return.  Machine strings (outcome names, enum `.value` strings) are kept as
strings, as the Python code records them.
-/

namespace SafeAgent

/-- Embeds `RiskLevel` from `agent_polis.actions.models`: ordered enum LOW..CRITICAL. -/
inductive RiskLevel
  | low
  | medium
  | high
  | critical
deriving DecidableEq, Repr

/-- Embeds `SafeAgent._risk_severity` / `DiffGateRunner._risk_severity`: severity
index 0..3 (the Python `order.get(level, 99)` fallback is unreachable for
enum members, so the total function on the enum is the faithful embedding). -/
def riskSeverity : RiskLevel → Nat
  | .low => 0
  | .medium => 1
  | .high => 2
  | .critical => 3

/-- The `.value` string of a `RiskLevel` member, as stored in events. -/
def RiskLevel.value : RiskLevel → String
  | .low => "low"
  | .medium => "medium"
  | .high => "high"
  | .critical => "critical"

/-- Embeds `PolicyDecision` from `agent_polis.governance.policy`. -/
inductive PolicyDecision
  | allow
  | deny
  | requireApproval
deriving DecidableEq, Repr

/-- The `.value` string of a `PolicyDecision` member. -/
def PolicyDecision.value : PolicyDecision → String
  | .allow => "allow"
  | .deny => "deny"
  | .requireApproval => "require_approval"

/-- A proposed change dict: `{action, path, description, content}`. -/
structure Change where
  action : String
  path : String
  description : String
  content : String := ""
deriving DecidableEq, Repr

/-- One entry of `self._governance_events`, as appended by
`_record_governance_event` in both engines (fields hold the recorded
strings: `risk_level.value if risk_level else None`, etc.). -/
structure GovernanceEvent where
  path : String
  action : String
  riskLevel : Option String
  policyDecision : Option String
  matchedRuleId : Option String
  scannerSeverity : Option String
  scannerReasonIds : List String
  outcome : String
deriving DecidableEq, Repr

/-- Result of `PolicyEvaluator.evaluate`: a decision and an optional
`matched_rule_id`. -/
structure PolicyResult where
  decision : PolicyDecision
  matchedRuleId : Option String
deriving DecidableEq, Repr

/-- Result of `PromptInjectionScanner.scan_action_request`: the findings'
reason ids and `max_severity()` (the severity `.value` string, when any). -/
structure ScanResult where
  reasonIds : List String
  maxSeverity : Option String
deriving DecidableEq, Repr

/-- Python `a or d` for an optional string `a`: `None` and the empty string
are falsy, so both fall back to the default. -/
def strOr (a : Option String) (d : String) : String :=
  match a with
  | none => d
  | some s => if s = "" then d else s

/-- Ordered insertion used to embed Python `sorted` on small string sets. -/
def insertStr (s : String) : List String → List String
  | [] => [s]
  | t :: ts => if s < t then s :: t :: ts else t :: insertStr s ts

/-- Python `sorted({...})`: deduplicate, then sort ascending. -/
def sortedDedup (l : List String) : List String :=
  l.dedup.foldr insertStr []

/-! Python string primitives, embedded over the character list so every
definition is executable by structural recursion. -/

/-- Python `str.lower()` (ASCII, which covers every string the code feeds it). -/
def strToLower (s : String) : String :=
  String.mk (s.data.map Char.toLower)

/-- Python `str.upper()` (ASCII). -/
def strToUpper (s : String) : String :=
  String.mk (s.data.map Char.toUpper)

/-- Embeds Python `str.isspace()`, the character class `str.strip()` removes:
exactly the Unicode whitespace code points CPython strips — 0x09-0x0D,
0x1C-0x20, 0x85, 0xA0, 0x1680, 0x2000-0x200A, 0x2028, 0x2029, 0x202F,
0x205F, 0x3000 (enumerated from `chr(i).isspace()` over the full code-point
range). -/
def pyIsSpace (c : Char) : Bool :=
  let n := c.toNat
  (Nat.ble 9 n && Nat.ble n 13) || (Nat.ble 28 n && Nat.ble n 32) ||
  n == 0x85 || n == 0xA0 || n == 0x1680 ||
  (Nat.ble 0x2000 n && Nat.ble n 0x200A) ||
  n == 0x2028 || n == 0x2029 || n == 0x202F || n == 0x205F || n == 0x3000

/-- Python `str.strip()`: drop leading and trailing Unicode whitespace. -/
def strTrim (s : String) : String :=
  String.mk (((s.data.dropWhile pyIsSpace).reverse.dropWhile pyIsSpace).reverse)

/-- Python `s.startswith(pre)`. -/
def strStartsWith (s pre : String) : Bool :=
  pre.data.isPrefixOf s.data

/-- Tail of Python `s.split(sep)` for a one-character separator: the
accumulator holds the current piece reversed. -/
def splitOnCharAux (sep : Char) (acc : List Char) : List Char → List String
  | [] => [String.mk acc.reverse]
  | c :: cs =>
      if c = sep then String.mk acc.reverse :: splitOnCharAux sep [] cs
      else splitOnCharAux sep (c :: acc) cs

/-- Python `s.split(sep)` for a one-character separator: always at least
one (possibly empty) piece. -/
def splitOnChar (sep : Char) (s : String) : List String :=
  splitOnCharAux sep [] s.data

/-- Embeds `self.fail_on_risk and self._risk_severity(level) >= self._risk_severity(self.fail_on_risk)`:
an absent threshold is falsy, a present enum member is truthy. -/
def failTriggers : Option RiskLevel → RiskLevel → Bool
  | none, _ => false
  | some f, r => riskSeverity r ≥ riskSeverity f

/-- The mutable run state shared by both engines: the accumulated lists and
flags of `SafeAgent.__init__` / `DiffGateRunner.__init__`, plus `executed`,
which records every invocation of `SafeAgent._execute_change` (the only
filesystem-mutating step). -/
structure AgentState where
  changesMade : List Change
  changesRejected : List Change
  maxRiskLevelSeen : Option RiskLevel
  riskPolicyFailed : Bool
  governancePolicyFailed : Bool
  governancePolicyReason : Option String
  events : List GovernanceEvent
  executed : List Change
deriving DecidableEq, Repr

/-- The state right after construction. -/
def initialState : AgentState :=
  { changesMade := []
    changesRejected := []
    maxRiskLevelSeen := none
    riskPolicyFailed := false
    governancePolicyFailed := false
    governancePolicyReason := none
    events := []
    executed := [] }

/-- Embeds `_record_governance_event`: append one event to the log. -/
def recordEvent (st : AgentState) (e : GovernanceEvent) : AgentState :=
  { st with events := st.events ++ [e] }

/-- Embeds `_note_risk` (identical in both engines): keep the running maximum by
severity, initializing on the first observation. -/
def noteRisk (st : AgentState) (level : RiskLevel) : AgentState :=
  match st.maxRiskLevelSeen with
  | none => { st with maxRiskLevelSeen := some level }
  | some cur =>
      if riskSeverity level > riskSeverity cur then
        { st with maxRiskLevelSeen := some level }
      else
        st

/-- Embeds `if cond: self.risk_policy_failed = True` — the conditional flag update
both engines perform when the fail-on-risk threshold fires. -/
def setRiskFailed (st : AgentState) (b : Bool) : AgentState :=
  if b then { st with riskPolicyFailed := true } else st

/-- Severity order on the optional running maximum: `none` (no risk seen yet)
is below everything, and a recorded maximum may never disappear. -/
def riskLeOpt : Option RiskLevel → Option RiskLevel → Prop
  | none, _ => True
  | some _, none => False
  | some a, some b => riskSeverity a ≤ riskSeverity b

instance : ∀ a b, Decidable (riskLeOpt a b) := by
  intro a b
  cases a <;> cases b <;> simp only [riskLeOpt] <;> infer_instance

/-! ## Path safety resolver (`_resolve_path_safe`, identical in both engines)

`base` is `Path(self.working_directory).resolve()` and `canon raw` is the
filesystem canonicalization `(base / raw).resolve()` — an oracle, since it
depends on symlinks on disk.  `Path.is_absolute` is embedded for POSIX
(leading slash).  Python `resolved.relative_to(base)` succeeds exactly when
`resolved` equals `base` or lies strictly underneath it. -/

/-- Holds when `resolved.relative_to(base)` succeeds, for the canonical
absolute paths `Path.resolve` produces (no trailing slash except the root
`"/"` itself, no empty or dot segments): `relative_to` succeeds when the
root's parts are a prefix of the resolved path's parts, i.e. when the two
paths are equal or `resolved` extends `base` past a path separator — and a
base of `"/"` already ends in its separator, so every absolute path is
under it. -/
def underRoot (base p : String) : Bool :=
  p == base || strStartsWith p (if base == "/" then "/" else base ++ "/")

/-- Embeds `len(raw) >= 2 and raw[1] == ":" and raw[0].isalpha()`.  Python
`str.isalpha` tests the Unicode Alphabetic property; the model consumes it
as an opaque predicate `isalpha`, the same way it consumes the filesystem
canonicalization, so every theorem holds for the real Unicode predicate in
particular. -/
def isDriveLetter (isalpha : Char → Bool) (raw : String) : Bool :=
  match raw.data with
  | c0 :: c1 :: _ => c1 = ':' && isalpha c0
  | _ => false

/-- Embeds `_resolve_path_safe` of `agent.py` lines 200-230 and `diff_gate.py`
lines 89-108 (the two bodies perform the same checks in the same order).
`canon raw` is the filesystem canonicalization `(base / raw).resolve()` and
`isalpha` is Python's Unicode `str.isalpha`, both consumed as oracles. -/
def resolvePathSafe (base : String) (canon : String → String)
    (isalpha : Char → Bool) (path : String) : Option String :=
  let raw := strTrim path
  if raw = "" ∨ raw = "." ∨ raw = "./" then none
  else if strStartsWith raw "~" then none
  else if raw.data.contains (Char.ofNat 0) then none
  else if isDriveLetter isalpha raw then none
  else if strStartsWith raw "\\\\" then none
  else if strStartsWith raw "/" then none
  else
    let resolved := canon raw
    if underRoot base resolved then some resolved else none

/-! ## Builtin policy construction (`SafeAgent._init_governance`,
`DiffGateRunner._build_policy_config`) -/

/-- The `PolicyRule` fields used by the builtin config. -/
structure PolicyRule where
  id : String
  decision : PolicyDecision
  priority : Nat
  targetContains : List String := []
  maxRiskLevel : Option RiskLevel := none
deriving DecidableEq, Repr

/-- Embeds `PolicyConfig(version=..., rules=...)`. -/
structure PolicyConfig where
  version : String
  rules : List PolicyRule
deriving DecidableEq, Repr

/-- The builtin DENY rule for secret/credential-like targets. -/
def denySecretsRule : PolicyRule :=
  { id := "builtin:deny-secrets-and-keys"
    decision := .deny
    priority := 0
    targetContains :=
      [".env", ".ssh", "id_rsa", "credentials", "secrets", "password",
       ".pem", "api_key", "secret_key", "access_key"] }

/-- The builtin ALLOW rule for low/medium risk, appended only outside
compliance mode. -/
def allowLowMediumRule : PolicyRule :=
  { id := "builtin:allow-low-and-medium-risk"
    decision := .allow
    priority := 100
    maxRiskLevel := some .medium }

/-- The builtin default policy: `rules = [deny]`, then
`if not compliance_mode: rules.append(allow)`. -/
def builtinPolicyConfig (complianceMode : Bool) : PolicyConfig :=
  { version := "safe-agent-builtin-1"
    rules := [denySecretsRule] ++ (if complianceMode then [] else [allowLowMediumRule]) }

/-- Embeds `SafeAgent.__init__` lines 50 and 59-60:
`self.auto_approve_low_risk = auto_approve_low_risk and not compliance_mode`,
then `if compliance_mode: self.auto_approve_low_risk = False`. -/
def initAutoApproveLowRisk (requested complianceMode : Bool) : Bool :=
  let v := requested && !complianceMode
  if complianceMode then false else v

/-! ## Planner engine: `SafeAgent._preview_and_approve` and the loop in
`SafeAgent.run` -/

/-- The constructor settings consulted by `_preview_and_approve` / `run`. -/
structure AgentConfig where
  autoApproveLowRisk : Bool
  dryRun : Bool
  nonInteractive : Bool
  failOnRisk : Option RiskLevel
deriving DecidableEq, Repr

/-- The answers the external collaborators give for one change:
`_resolve_path_safe` result (filesystem-dependent), `analyzer.analyze`
risk level, `PolicyEvaluator.evaluate` result,
`PromptInjectionScanner.scan_action_request` result, and the human answer
to `Confirm.ask` in the interactive branch. -/
structure ChangeEnv where
  resolvedPath : Option String
  riskLevel : RiskLevel
  policy : PolicyResult
  scan : ScanResult
  userApproves : Bool
deriving DecidableEq, Repr

/-- The event-field block shared by every terminal branch of
`_preview_and_approve` once the analyzer/policy/scanner have run:
`scan_max_str = value.upper() if scan_max else "NONE"`, and the recorded
severity is `scan_max_str.lower() if scan_max_str else None`. -/
def plannerBaseEvent (ch : Change) (env : ChangeEnv) : GovernanceEvent :=
  let scanMaxStr := match env.scan.maxSeverity with
    | some v => strToUpper v
    | none => "NONE"
  { path := ch.path
    action := ch.action
    riskLevel := some env.riskLevel.value
    policyDecision := some env.policy.decision.value
    matchedRuleId := env.policy.matchedRuleId
    scannerSeverity := if scanMaxStr = "" then none else some (strToLower scanMaxStr)
    scannerReasonIds := sortedDedup env.scan.reasonIds
    outcome := "" }

/-- Embeds `SafeAgent._preview_and_approve` (`agent.py` lines 645-872): returns the
updated state and the approval boolean.  Branches in source order:
unsafe path, unknown action, (note risk, set `risk_policy_failed` on
threshold), DENY, fail-on-risk, non-interactive, auto-approve-low-risk,
dry-run, interactive prompt. -/
def previewAndApprove (cfg : AgentConfig) (st : AgentState) (ch : Change)
    (env : ChangeEnv) : AgentState × Bool :=
  match env.resolvedPath with
  | none =>
      let st := noteRisk st .critical
      let st := setRiskFailed st (failTriggers cfg.failOnRisk .critical)
      (recordEvent st
        { path := ch.path, action := ch.action
          riskLevel := some (RiskLevel.value .critical)
          policyDecision := none, matchedRuleId := none
          scannerSeverity := none, scannerReasonIds := []
          outcome := "blocked_unsafe_path" }, false)
  | some _ =>
      if ch.action = "create" ∨ ch.action = "modify" ∨ ch.action = "delete" then
        let st := noteRisk st env.riskLevel
        let policyTriggered := failTriggers cfg.failOnRisk env.riskLevel
        let st := setRiskFailed st policyTriggered
        let base := plannerBaseEvent ch env
        if env.policy.decision = .deny then
          let st := { st with
            governancePolicyFailed := true
            governancePolicyReason := some (strOr env.policy.matchedRuleId "policy_denied") }
          (recordEvent st { base with outcome := "blocked_by_policy_deny" }, false)
        else if policyTriggered && cfg.failOnRisk.isSome then
          (recordEvent st { base with outcome := "blocked_by_fail_on_risk" }, false)
        else if cfg.nonInteractive then
          if env.policy.decision = .allow then
            (recordEvent st { base with outcome := "approved_non_interactive" }, true)
          else
            (recordEvent st
              { base with outcome := "blocked_non_interactive_requires_approval" }, false)
        else if cfg.autoApproveLowRisk ∧ env.riskLevel = .low ∧
            env.policy.decision = .allow then
          (recordEvent st { base with outcome := "approved_auto_low_risk" }, true)
        else if cfg.dryRun then
          (recordEvent st { base with outcome := "blocked_dry_run" }, false)
        else
          (recordEvent st
            { base with outcome :=
                if env.userApproves then "approved_interactive" else "rejected_interactive" },
            env.userApproves)
      else
        (recordEvent st
          { path := ch.path, action := ch.action
            riskLevel := none, policyDecision := none, matchedRuleId := none
            scannerSeverity := none, scannerReasonIds := []
            outcome := "blocked_unknown_action" }, false)

/-- One iteration of the loop in `SafeAgent.run` (lines 516-526):
`if approved and not self.dry_run: self._execute_change(change);
self.changes_made.append(change)` / `elif not approved:
self.changes_rejected.append(change)`. -/
def runStep (cfg : AgentConfig) (st : AgentState) (ch : Change)
    (env : ChangeEnv) : AgentState :=
  let r := previewAndApprove cfg st ch env
  if r.2 && !cfg.dryRun then
    { r.1 with
      executed := r.1.executed ++ [ch]
      changesMade := r.1.changesMade ++ [ch] }
  else if !r.2 then
    { r.1 with changesRejected := r.1.changesRejected ++ [ch] }
  else
    r.1

/-- The whole per-change loop of `SafeAgent.run` over a plan, with each
change's collaborator answers supplied alongside it. -/
def runPlan (cfg : AgentConfig) (st : AgentState) :
    List (Change × ChangeEnv) → AgentState
  | [] => st
  | (ch, env) :: rest => runPlan cfg (runStep cfg st ch env) rest

/-- The `summary` block computed by `SafeAgent._finalize_audit_trail`
(lines 945-953). -/
structure AuditSummary where
  totalChangesPlanned : Nat
  changesApproved : Nat
  changesRejected : Nat
  changesExecuted : Nat
  policyViolations : Nat
deriving DecidableEq, Repr

/-- Embeds `SafeAgent._finalize_audit_trail`, summary counters only. -/
def finalizeSummary (cfg : AgentConfig) (st : AgentState) : AuditSummary :=
  { totalChangesPlanned := st.changesMade.length + st.changesRejected.length
    changesApproved := st.changesMade.length
    changesRejected := st.changesRejected.length
    changesExecuted := if !cfg.dryRun then st.changesMade.length else 0
    policyViolations :=
      (st.events.filter (fun e => e.outcome = "blocked_by_policy_deny")).length }

/-! ## Diff-gate engine: `DiffGateRunner` (`diff_gate.py`) -/

/-- What the filesystem does when `_read_content` touches a file:
`read_text` succeeds; or raises `UnicodeDecodeError`, whereupon the
`read_bytes` re-read inside the handler either succeeds (its bytes decoded
with replacement characters) or itself raises `OSError`; or `read_text`
raises `OSError` directly. -/
inductive FileReadOutcome
  | ok (text : String)
  | undecodable (replaced : String)
  | undecodableThenOsError
  | osError
deriving DecidableEq, Repr

/-- Embeds `DiffGateRunner._read_content` (lines 231-241): an `OSError`
from `read_text` yields the empty string; a successful (possibly
replacement-decoded) text is truncated to 200,000 characters; `none` is an
exception escaping the helper — an `OSError` raised by the `read_bytes`
re-read inside the `except UnicodeDecodeError` handler is not caught by
the sibling `except OSError` clause and propagates. -/
def readContent : FileReadOutcome → Option String
  | .ok t => some (if t.data.length > 200000 then String.mk (t.data.take 200000) else t)
  | .undecodable t =>
      some (if t.data.length > 200000 then String.mk (t.data.take 200000) else t)
  | .undecodableThenOsError => none
  | .osError => some ""

/-- The constructor settings of `DiffGateRunner` consulted by its per-change
loop (`compliance_mode` only shapes the builtin policy, which is an oracle
input here; there is no dry-run or interactive mode in this engine). -/
structure DiffGateConfig where
  failOnRisk : Option RiskLevel
deriving DecidableEq, Repr

/-- Collaborator answers for one diff-gate change, including what the
filesystem read of the change's content does. -/
structure DiffEnv where
  resolvedPath : Option String
  readResult : FileReadOutcome
  riskLevel : RiskLevel
  policy : PolicyResult
  scan : ScanResult
deriving DecidableEq, Repr

/-- The event-field block shared by the governed branches of
`DiffGateRunner.run`: here `scan_max_str = value.lower() if scan_max else
None` (unlike the planner, no "NONE" placeholder). -/
def diffGateBaseEvent (ch : Change) (env : DiffEnv) : GovernanceEvent :=
  { path := ch.path
    action := ch.action
    riskLevel := some env.riskLevel.value
    policyDecision := some env.policy.decision.value
    matchedRuleId := env.policy.matchedRuleId
    scannerSeverity := env.scan.maxSeverity.map strToLower
    scannerReasonIds := sortedDedup env.scan.reasonIds
    outcome := "" }

/-- One iteration of the per-change loop in `DiffGateRunner.run`
(lines 317-440), given that no exception interrupts it.  Branches in
source order: unsafe path, action mapping, note risk, DENY, fail-on-risk,
ALLOW → approved, else → requires approval.  The content string read by
`_read_content` feeds the `ActionRequest` consumed by the
analyzer/policy/scanner oracles, whose answers are already part of `env`;
the read itself, which can instead raise and abort the run, is accounted
for by `diffGateStepE` below. -/
def diffGateStep (cfg : DiffGateConfig) (st : AgentState) (ch : Change)
    (env : DiffEnv) : AgentState :=
  match env.resolvedPath with
  | none =>
      let st := noteRisk st .critical
      let st := setRiskFailed st (failTriggers cfg.failOnRisk .critical)
      let st := { st with changesRejected := st.changesRejected ++ [ch] }
      recordEvent st
        { path := ch.path, action := ch.action
          riskLevel := some (RiskLevel.value .critical)
          policyDecision := none, matchedRuleId := none
          scannerSeverity := none, scannerReasonIds := []
          outcome := "blocked_unsafe_path" }
  | some _ =>
      if ch.action = "create" ∨ ch.action = "modify" ∨ ch.action = "delete" then
        let st := noteRisk st env.riskLevel
        let base := diffGateBaseEvent ch env
        if env.policy.decision = .deny then
          let st := { st with
            governancePolicyFailed := true
            governancePolicyReason := some (strOr env.policy.matchedRuleId "policy_denied")
            changesRejected := st.changesRejected ++ [ch] }
          recordEvent st { base with outcome := "blocked_by_policy_deny" }
        else if failTriggers cfg.failOnRisk env.riskLevel then
          let st := { st with
            riskPolicyFailed := true
            changesRejected := st.changesRejected ++ [ch] }
          recordEvent st { base with outcome := "blocked_by_fail_on_risk" }
        else if env.policy.decision = .allow then
          let st := { st with changesMade := st.changesMade ++ [ch] }
          recordEvent st { base with outcome := "approved_non_interactive" }
        else
          let st := { st with changesRejected := st.changesRejected ++ [ch] }
          recordEvent st
            { base with outcome := "blocked_non_interactive_requires_approval" }
      else
        let st := { st with changesRejected := st.changesRejected ++ [ch] }
        recordEvent st
          { path := ch.path, action := ch.action
            riskLevel := none, policyDecision := none, matchedRuleId := none
            scannerSeverity := none, scannerReasonIds := []
            outcome := "blocked_unknown_action" }

/-- The whole per-change loop of `DiffGateRunner.run`. -/
def diffGateRun (cfg : DiffGateConfig) (st : AgentState) :
    List (Change × DiffEnv) → AgentState
  | [] => st
  | (ch, env) :: rest => diffGateRun cfg (diffGateStep cfg st ch env) rest

/-- One iteration of the `DiffGateRunner.run` loop including the content
read: for a safely-resolved create/modify change the loop calls
`_read_content` before anything else in its branch, so when that read
raises (`readContent` is `none`) the exception propagates with the state
untouched and the run aborts — modelled as `none`; in every other case the
governed step `diffGateStep` runs on the collaborator answers.  Delete,
unknown-action and unsafe-path changes perform no read. -/
def diffGateStepE (cfg : DiffGateConfig) (st : AgentState) (ch : Change)
    (env : DiffEnv) : Option AgentState :=
  match env.resolvedPath with
  | none => some (diffGateStep cfg st ch env)
  | some _ =>
      if ch.action = "create" ∨ ch.action = "modify" then
        match readContent env.readResult with
        | none => none
        | some _ => some (diffGateStep cfg st ch env)
      else
        some (diffGateStep cfg st ch env)

/-! ## Diff change collector: the parsing part of
`DiffGateRunner._collect_diff_changes` (lines 201-217)

The git invocation itself is an oracle delivering the raw
`--name-status` lines.  `Option` models the fact that the Python loop
raises (`status[0]` on an empty first field) instead of producing changes;
`some []` is a line that appends nothing. -/

/-- A create change as built by the collector. -/
def createChange (p : String) : Change :=
  { action := "create", path := p, description := "create " ++ p }

/-- A modify change as built by the collector. -/
def modifyChange (p : String) : Change :=
  { action := "modify", path := p, description := "modify " ++ p }

/-- A delete change as built by the collector. -/
def deleteChange (p : String) : Change :=
  { action := "delete", path := p, description := "delete " ++ p }

/-- The delete half of a rename entry. -/
def renameDeleteChange (p : String) : Change :=
  { action := "delete", path := p, description := "rename-delete " ++ p }

/-- The create half of a rename entry. -/
def renameCreateChange (p : String) : Change :=
  { action := "create", path := p, description := "rename-create " ++ p }

/-- The `parts = line.split("\t"); status = parts[0]; code = status[0]`
dispatch: `A`/`M`/`D` (with at least two fields) append one change, `R`
(with at least three) appends delete(old) then create(new), any other code
appends nothing.  `none` is the `IndexError` Python raises when the first
field is empty (`split` never returns an empty list, so the `[]` case is
unreachable and also mapped to `none`). -/
def parseParts : List String → Option (List Change)
  | [] => none
  | status :: rest =>
      match status.data.head? with
      | none => none
      | some c =>
          if c = 'A' then
            some (match rest with | p :: _ => [createChange p] | [] => [])
          else if c = 'M' then
            some (match rest with | p :: _ => [modifyChange p] | [] => [])
          else if c = 'D' then
            some (match rest with | p :: _ => [deleteChange p] | [] => [])
          else if c = 'R' then
            some (match rest with
              | old :: newPath :: _ => [renameDeleteChange old, renameCreateChange newPath]
              | _ => [])
          else
            some []

/-- One line of the collector loop: blank lines (`if not line.strip()`)
are skipped, others are split on tabs and dispatched. -/
def lineChanges (line : String) : Option (List Change) :=
  if strTrim line = "" then some [] else parseParts (splitOnChar (Char.ofNat 9) line)

/-- The collector loop over the diff output lines, preserving line order
(each line's changes are appended in order). -/
def diffChanges : List String → Option (List Change)
  | [] => some []
  | l :: ls => do
      let cs ← lineChanges l
      let rest ← diffChanges ls
      pure (cs ++ rest)

/-! ## Outcome taxonomy -/

/-- The closed set of ten outcome strings of spec §4.3. -/
def outcomeTaxonomy : List String :=
  ["blocked_unsafe_path", "blocked_unknown_action", "blocked_by_policy_deny",
   "blocked_by_fail_on_risk", "blocked_non_interactive_requires_approval",
   "blocked_dry_run", "approved_non_interactive", "approved_auto_low_risk",
   "approved_interactive", "rejected_interactive"]

/-- The three "approved" outcomes. -/
def approvedOutcomes : List String :=
  ["approved_non_interactive", "approved_auto_low_risk", "approved_interactive"]

/-! ## Bookkeeping lemmas about the state helpers -/

@[simp] lemma recordEvent_events (st : AgentState) (e : GovernanceEvent) :
    (recordEvent st e).events = st.events ++ [e] := rfl

@[simp] lemma recordEvent_changesMade (st : AgentState) (e : GovernanceEvent) :
    (recordEvent st e).changesMade = st.changesMade := rfl

@[simp] lemma recordEvent_changesRejected (st : AgentState) (e : GovernanceEvent) :
    (recordEvent st e).changesRejected = st.changesRejected := rfl

@[simp] lemma recordEvent_maxRiskLevelSeen (st : AgentState) (e : GovernanceEvent) :
    (recordEvent st e).maxRiskLevelSeen = st.maxRiskLevelSeen := rfl

@[simp] lemma recordEvent_riskPolicyFailed (st : AgentState) (e : GovernanceEvent) :
    (recordEvent st e).riskPolicyFailed = st.riskPolicyFailed := rfl

@[simp] lemma recordEvent_governancePolicyFailed (st : AgentState) (e : GovernanceEvent) :
    (recordEvent st e).governancePolicyFailed = st.governancePolicyFailed := rfl

@[simp] lemma recordEvent_governancePolicyReason (st : AgentState) (e : GovernanceEvent) :
    (recordEvent st e).governancePolicyReason = st.governancePolicyReason := rfl

@[simp] lemma recordEvent_executed (st : AgentState) (e : GovernanceEvent) :
    (recordEvent st e).executed = st.executed := rfl

@[simp] lemma noteRisk_events (st : AgentState) (l : RiskLevel) :
    (noteRisk st l).events = st.events := by
  unfold noteRisk
  split
  · rfl
  · split <;> rfl

@[simp] lemma noteRisk_changesMade (st : AgentState) (l : RiskLevel) :
    (noteRisk st l).changesMade = st.changesMade := by
  unfold noteRisk
  split
  · rfl
  · split <;> rfl

@[simp] lemma noteRisk_changesRejected (st : AgentState) (l : RiskLevel) :
    (noteRisk st l).changesRejected = st.changesRejected := by
  unfold noteRisk
  split
  · rfl
  · split <;> rfl

@[simp] lemma noteRisk_riskPolicyFailed (st : AgentState) (l : RiskLevel) :
    (noteRisk st l).riskPolicyFailed = st.riskPolicyFailed := by
  unfold noteRisk
  split
  · rfl
  · split <;> rfl

@[simp] lemma noteRisk_governancePolicyFailed (st : AgentState) (l : RiskLevel) :
    (noteRisk st l).governancePolicyFailed = st.governancePolicyFailed := by
  unfold noteRisk
  split
  · rfl
  · split <;> rfl

@[simp] lemma noteRisk_governancePolicyReason (st : AgentState) (l : RiskLevel) :
    (noteRisk st l).governancePolicyReason = st.governancePolicyReason := by
  unfold noteRisk
  split
  · rfl
  · split <;> rfl

@[simp] lemma noteRisk_executed (st : AgentState) (l : RiskLevel) :
    (noteRisk st l).executed = st.executed := by
  unfold noteRisk
  split
  · rfl
  · split <;> rfl

@[simp] lemma setRiskFailed_events (st : AgentState) (b : Bool) :
    (setRiskFailed st b).events = st.events := by
  unfold setRiskFailed
  split <;> rfl

@[simp] lemma setRiskFailed_changesMade (st : AgentState) (b : Bool) :
    (setRiskFailed st b).changesMade = st.changesMade := by
  unfold setRiskFailed
  split <;> rfl

@[simp] lemma setRiskFailed_changesRejected (st : AgentState) (b : Bool) :
    (setRiskFailed st b).changesRejected = st.changesRejected := by
  unfold setRiskFailed
  split <;> rfl

@[simp] lemma setRiskFailed_maxRiskLevelSeen (st : AgentState) (b : Bool) :
    (setRiskFailed st b).maxRiskLevelSeen = st.maxRiskLevelSeen := by
  unfold setRiskFailed
  split <;> rfl

@[simp] lemma setRiskFailed_governancePolicyFailed (st : AgentState) (b : Bool) :
    (setRiskFailed st b).governancePolicyFailed = st.governancePolicyFailed := by
  unfold setRiskFailed
  split <;> rfl

@[simp] lemma setRiskFailed_governancePolicyReason (st : AgentState) (b : Bool) :
    (setRiskFailed st b).governancePolicyReason = st.governancePolicyReason := by
  unfold setRiskFailed
  split <;> rfl

@[simp] lemma setRiskFailed_executed (st : AgentState) (b : Bool) :
    (setRiskFailed st b).executed = st.executed := by
  unfold setRiskFailed
  split <;> rfl

@[simp] lemma setRiskFailed_riskPolicyFailed (st : AgentState) (b : Bool) :
    (setRiskFailed st b).riskPolicyFailed = (st.riskPolicyFailed || b) := by
  unfold setRiskFailed
  cases b <;> simp

lemma riskLeOpt_refl (a : Option RiskLevel) : riskLeOpt a a := by
  cases a <;> simp [riskLeOpt]

lemma riskLeOpt_trans {a b c : Option RiskLevel} :
    riskLeOpt a b → riskLeOpt b c → riskLeOpt a c := by
  cases a <;> cases b <;> cases c <;> · simp [riskLeOpt]; try omega

lemma riskLeOpt_noteRisk (st : AgentState) (l : RiskLevel) :
    riskLeOpt st.maxRiskLevelSeen (noteRisk st l).maxRiskLevelSeen := by
  unfold noteRisk
  rcases h : st.maxRiskLevelSeen with _ | cur
  · simp [riskLeOpt]
  · dsimp only
    split
    · simp only [h, riskLeOpt]
      omega
    · simp [h, riskLeOpt_refl]

/-! ## Claims -/

/-- C1: For every processed change for which the policy evaluator returns
DENY (on a safely resolved path with a known action, which is when the
evaluator runs), the recorded GovernanceEvent outcome is
`blocked_by_policy_deny`, `governance_policy_failed` is set to true, and
`governance_policy_reason` is set to the matched rule id (or
`"policy_denied"` when no rule id is present — Python `or`, embedded as
`strOr`), in both engines and regardless of the `fail_on_risk`,
auto-approve-low-risk, dry-run, or interactive settings (the statement
quantifies over every configuration). -/
theorem claim_C1_deny_always_wins :
    (∀ (cfg : AgentConfig) (st : AgentState) (ch : Change) (env : ChangeEnv) (p : String),
        env.resolvedPath = some p →
        (ch.action = "create" ∨ ch.action = "modify" ∨ ch.action = "delete") →
        env.policy.decision = .deny →
        (previewAndApprove cfg st ch env).1.governancePolicyFailed = true ∧
        (previewAndApprove cfg st ch env).1.governancePolicyReason =
          some (strOr env.policy.matchedRuleId "policy_denied") ∧
        (∃ e, (previewAndApprove cfg st ch env).1.events = st.events ++ [e] ∧
          e.outcome = "blocked_by_policy_deny") ∧
        (previewAndApprove cfg st ch env).2 = false) ∧
    (∀ (cfg : DiffGateConfig) (st : AgentState) (ch : Change) (env : DiffEnv) (p : String),
        env.resolvedPath = some p →
        (ch.action = "create" ∨ ch.action = "modify" ∨ ch.action = "delete") →
        env.policy.decision = .deny →
        (diffGateStep cfg st ch env).governancePolicyFailed = true ∧
        (diffGateStep cfg st ch env).governancePolicyReason =
          some (strOr env.policy.matchedRuleId "policy_denied") ∧
        ∃ e, (diffGateStep cfg st ch env).events = st.events ++ [e] ∧
          e.outcome = "blocked_by_policy_deny") := by
  constructor
  · intro cfg st ch env p hp hact hdeny
    simp only [previewAndApprove, hp]
    rw [if_pos hact, if_pos hdeny]
    exact ⟨by simp, by simp,
      ⟨{ plannerBaseEvent ch env with outcome := "blocked_by_policy_deny" }, by simp, rfl⟩,
      rfl⟩
  · intro cfg st ch env p hp hact hdeny
    simp only [diffGateStep, hp]
    rw [if_pos hact, if_pos hdeny]
    exact ⟨by simp, by simp,
      ⟨{ diffGateBaseEvent ch env with outcome := "blocked_by_policy_deny" }, by simp, rfl⟩⟩

/-- Witness for C1: a concrete `.env` create change denied by the builtin
rule, in a configuration with auto-approve, dry-run and a fail-on-risk
threshold all active. -/
theorem claim_C1_deny_always_wins_witness :
    (previewAndApprove
        { autoApproveLowRisk := true, dryRun := true, nonInteractive := false,
          failOnRisk := some .low }
        initialState
        { action := "create", path := ".env", description := "create .env" }
        { resolvedPath := some "/w/.env", riskLevel := .low,
          policy := { decision := .deny,
                      matchedRuleId := some "builtin:deny-secrets-and-keys" },
          scan := { reasonIds := [], maxSeverity := none },
          userApproves := true }).1.governancePolicyFailed = true ∧
    (previewAndApprove
        { autoApproveLowRisk := true, dryRun := true, nonInteractive := false,
          failOnRisk := some .low }
        initialState
        { action := "create", path := ".env", description := "create .env" }
        { resolvedPath := some "/w/.env", riskLevel := .low,
          policy := { decision := .deny,
                      matchedRuleId := some "builtin:deny-secrets-and-keys" },
          scan := { reasonIds := [], maxSeverity := none },
          userApproves := true }).1.governancePolicyReason =
      some (strOr (some "builtin:deny-secrets-and-keys") "policy_denied") ∧
    (∃ e, (previewAndApprove
        { autoApproveLowRisk := true, dryRun := true, nonInteractive := false,
          failOnRisk := some .low }
        initialState
        { action := "create", path := ".env", description := "create .env" }
        { resolvedPath := some "/w/.env", riskLevel := .low,
          policy := { decision := .deny,
                      matchedRuleId := some "builtin:deny-secrets-and-keys" },
          scan := { reasonIds := [], maxSeverity := none },
          userApproves := true }).1.events = initialState.events ++ [e] ∧
      e.outcome = "blocked_by_policy_deny") ∧
    (previewAndApprove
        { autoApproveLowRisk := true, dryRun := true, nonInteractive := false,
          failOnRisk := some .low }
        initialState
        { action := "create", path := ".env", description := "create .env" }
        { resolvedPath := some "/w/.env", riskLevel := .low,
          policy := { decision := .deny,
                      matchedRuleId := some "builtin:deny-secrets-and-keys" },
          scan := { reasonIds := [], maxSeverity := none },
          userApproves := true }).2 = false :=
  claim_C1_deny_always_wins.1 _ _ _ _ "/w/.env" rfl (Or.inl rfl) rfl

lemma previewAndApprove_changesMade (cfg : AgentConfig) (st : AgentState) (ch : Change)
    (env : ChangeEnv) :
    (previewAndApprove cfg st ch env).1.changesMade = st.changesMade := by
  rcases henv : env.resolvedPath with _ | p <;>
    simp only [previewAndApprove, henv] <;>
    (try split_ifs) <;> simp

lemma previewAndApprove_changesRejected (cfg : AgentConfig) (st : AgentState) (ch : Change)
    (env : ChangeEnv) :
    (previewAndApprove cfg st ch env).1.changesRejected = st.changesRejected := by
  rcases henv : env.resolvedPath with _ | p <;>
    simp only [previewAndApprove, henv] <;>
    (try split_ifs) <;> simp

lemma previewAndApprove_executed (cfg : AgentConfig) (st : AgentState) (ch : Change)
    (env : ChangeEnv) :
    (previewAndApprove cfg st ch env).1.executed = st.executed := by
  rcases henv : env.resolvedPath with _ | p <;>
    simp only [previewAndApprove, henv] <;>
    (try split_ifs) <;> simp

/-- A change's appended event carries an approved outcome exactly when
`_preview_and_approve` returned `True`: the engine's boolean and its
recorded outcome agree branch by branch. -/
lemma previewAndApprove_approved_iff (cfg : AgentConfig) (st : AgentState) (ch : Change)
    (env : ChangeEnv) (e : GovernanceEvent)
    (he : (previewAndApprove cfg st ch env).1.events = st.events ++ [e]) :
    ((previewAndApprove cfg st ch env).2 = true ↔ e.outcome ∈ approvedOutcomes) := by
  rcases henv : env.resolvedPath with _ | p <;>
    simp only [previewAndApprove, henv] at he ⊢ <;>
    (try split_ifs at he ⊢) <;>
    simp only [recordEvent_events, noteRisk_events, setRiskFailed_events,
      List.append_cancel_left_eq, List.cons.injEq, and_true] at he <;>
    subst he <;>
    dsimp only <;>
    simp_all [approvedOutcomes]

lemma eventsAppendTaxonomy (s₀ s : AgentState) (e : GovernanceEvent)
    (h : s.events = s₀.events) (hmem : e.outcome ∈ outcomeTaxonomy) :
    ∃ x, (recordEvent s e).events = s₀.events ++ [x] ∧ x.outcome ∈ outcomeTaxonomy :=
  ⟨e, by simp [h], hmem⟩

/-- C2: For every change consumed by either decision engine
(`SafeAgent._preview_and_approve`, or one iteration of the per-change loop
of `DiffGateRunner.run`), exactly one GovernanceEvent is appended to the
governance event log, and its outcome is one of the ten defined values. -/
theorem claim_C2_one_event_closed_taxonomy :
    (∀ (cfg : AgentConfig) (st : AgentState) (ch : Change) (env : ChangeEnv),
      ∃ e, (previewAndApprove cfg st ch env).1.events = st.events ++ [e] ∧
        e.outcome ∈ outcomeTaxonomy) ∧
    (∀ (cfg : DiffGateConfig) (st : AgentState) (ch : Change) (env : DiffEnv),
      ∃ e, (diffGateStep cfg st ch env).events = st.events ++ [e] ∧
        e.outcome ∈ outcomeTaxonomy) := by
  constructor
  · intro cfg st ch env
    rcases henv : env.resolvedPath with _ | p
    · simp only [previewAndApprove, henv]
      exact eventsAppendTaxonomy st _ _ (by simp) (by dsimp only; decide)
    · simp only [previewAndApprove, henv]
      split_ifs <;>
        exact eventsAppendTaxonomy st _ _ (by simp)
          (by cases hu : env.userApproves <;> dsimp only <;> decide)
  · intro cfg st ch env
    rcases henv : env.resolvedPath with _ | p
    · simp only [diffGateStep, henv]
      exact eventsAppendTaxonomy st _ _ (by simp) (by dsimp only; decide)
    · simp only [diffGateStep, henv]
      split_ifs <;> exact eventsAppendTaxonomy st _ _ (by simp) (by dsimp only; decide)

/-- C3 counterexample: in the planner engine with `dry_run=True` and
`non_interactive=True`, an allowed change records the approved outcome
`approved_non_interactive`, yet `SafeAgent.run` (lines 521-526:
`if approved and not self.dry_run` / `elif not approved`) puts it into
neither `changes_made` nor `changes_rejected` — refuting the claim that
every processed change lands in exactly one of the two lists with approved
outcomes in `changes_made`. -/
theorem claim_C3_counterexample_dry_run_approved_lands_nowhere :
    (runStep
        { autoApproveLowRisk := false, dryRun := true, nonInteractive := true,
          failOnRisk := none }
        initialState
        { action := "create", path := "a.txt", description := "create a.txt" }
        { resolvedPath := some "/w/a.txt", riskLevel := .low,
          policy := { decision := .allow,
                      matchedRuleId := some "builtin:allow-low-and-medium-risk" },
          scan := { reasonIds := [], maxSeverity := none },
          userApproves := false }).events.map GovernanceEvent.outcome =
      ["approved_non_interactive"] ∧
    (runStep
        { autoApproveLowRisk := false, dryRun := true, nonInteractive := true,
          failOnRisk := none }
        initialState
        { action := "create", path := "a.txt", description := "create a.txt" }
        { resolvedPath := some "/w/a.txt", riskLevel := .low,
          policy := { decision := .allow,
                      matchedRuleId := some "builtin:allow-low-and-medium-risk" },
          scan := { reasonIds := [], maxSeverity := none },
          userApproves := false }).changesMade = [] ∧
    (runStep
        { autoApproveLowRisk := false, dryRun := true, nonInteractive := true,
          failOnRisk := none }
        initialState
        { action := "create", path := "a.txt", description := "create a.txt" }
        { resolvedPath := some "/w/a.txt", riskLevel := .low,
          policy := { decision := .allow,
                      matchedRuleId := some "builtin:allow-low-and-medium-risk" },
          scan := { reasonIds := [], maxSeverity := none },
          userApproves := false }).changesRejected = [] := by decide

/-- C3 amended: in the diff-gate engine, every processed change lands in
exactly one of the two lists — approved outcomes in `changes_made`, all
others in `changes_rejected`.  In the planner engine the same holds except
when dry-run is set and the outcome is an approved one
(`approved_non_interactive` or `approved_auto_low_risk`): then the change
lands in neither list. -/
theorem claim_C3_amended_outcome_routing :
    (∀ (cfg : AgentConfig) (st : AgentState) (ch : Change) (env : ChangeEnv)
        (e : GovernanceEvent),
      (previewAndApprove cfg st ch env).1.events = st.events ++ [e] →
      ((e.outcome ∈ approvedOutcomes ∧ cfg.dryRun = false →
          (runStep cfg st ch env).changesMade = st.changesMade ++ [ch] ∧
          (runStep cfg st ch env).changesRejected = st.changesRejected) ∧
       (e.outcome ∉ approvedOutcomes →
          (runStep cfg st ch env).changesMade = st.changesMade ∧
          (runStep cfg st ch env).changesRejected = st.changesRejected ++ [ch]) ∧
       (e.outcome ∈ approvedOutcomes ∧ cfg.dryRun = true →
          (runStep cfg st ch env).changesMade = st.changesMade ∧
          (runStep cfg st ch env).changesRejected = st.changesRejected))) ∧
    (∀ (cfg : DiffGateConfig) (st : AgentState) (ch : Change) (env : DiffEnv)
        (e : GovernanceEvent),
      (diffGateStep cfg st ch env).events = st.events ++ [e] →
      ((e.outcome ∈ approvedOutcomes →
          (diffGateStep cfg st ch env).changesMade = st.changesMade ++ [ch] ∧
          (diffGateStep cfg st ch env).changesRejected = st.changesRejected) ∧
       (e.outcome ∉ approvedOutcomes →
          (diffGateStep cfg st ch env).changesMade = st.changesMade ∧
          (diffGateStep cfg st ch env).changesRejected = st.changesRejected ++ [ch]))) := by
  constructor
  · intro cfg st ch env e he
    have hiff := previewAndApprove_approved_iff cfg st ch env e he
    refine ⟨?_, ?_, ?_⟩
    · rintro ⟨hmem, hdry⟩
      have h2 : (previewAndApprove cfg st ch env).2 = true := hiff.mpr hmem
      simp [runStep, h2, hdry, previewAndApprove_changesMade,
        previewAndApprove_changesRejected]
    · intro hmem
      have h2 : (previewAndApprove cfg st ch env).2 = false := by
        cases h : (previewAndApprove cfg st ch env).2
        · rfl
        · exact absurd (hiff.mp h) hmem
      simp [runStep, h2, previewAndApprove_changesMade,
        previewAndApprove_changesRejected]
    · rintro ⟨hmem, hdry⟩
      have h2 : (previewAndApprove cfg st ch env).2 = true := hiff.mpr hmem
      simp [runStep, h2, hdry, previewAndApprove_changesMade,
        previewAndApprove_changesRejected]
  · intro cfg st ch env e he
    rcases henv : env.resolvedPath with _ | p <;>
      simp only [diffGateStep, henv] at he ⊢ <;>
      (try split_ifs at he ⊢) <;>
      simp only [recordEvent_events, noteRisk_events, setRiskFailed_events,
        List.append_cancel_left_eq, List.cons.injEq, and_true] at he <;>
      subst he <;>
      constructor <;> intro hX <;> simp_all [approvedOutcomes]

/-- Witness for C3 amended: the planner engine at a concrete approved
change under dry-run — the change lands in neither list. -/
theorem claim_C3_amended_outcome_routing_witness :
    (runStep
        { autoApproveLowRisk := false, dryRun := true, nonInteractive := true,
          failOnRisk := none }
        initialState
        { action := "create", path := "a.txt", description := "create a.txt" }
        { resolvedPath := some "/w/a.txt", riskLevel := .low,
          policy := { decision := .allow,
                      matchedRuleId := some "builtin:allow-low-and-medium-risk" },
          scan := { reasonIds := [], maxSeverity := none },
          userApproves := false }).changesMade = initialState.changesMade ∧
    (runStep
        { autoApproveLowRisk := false, dryRun := true, nonInteractive := true,
          failOnRisk := none }
        initialState
        { action := "create", path := "a.txt", description := "create a.txt" }
        { resolvedPath := some "/w/a.txt", riskLevel := .low,
          policy := { decision := .allow,
                      matchedRuleId := some "builtin:allow-low-and-medium-risk" },
          scan := { reasonIds := [], maxSeverity := none },
          userApproves := false }).changesRejected = initialState.changesRejected :=
  (claim_C3_amended_outcome_routing.1
      { autoApproveLowRisk := false, dryRun := true, nonInteractive := true,
        failOnRisk := none }
      initialState
      { action := "create", path := "a.txt", description := "create a.txt" }
      { resolvedPath := some "/w/a.txt", riskLevel := .low,
        policy := { decision := .allow,
                    matchedRuleId := some "builtin:allow-low-and-medium-risk" },
        scan := { reasonIds := [], maxSeverity := none },
        userApproves := false }
      { path := "a.txt", action := "create", riskLevel := some "low",
        policyDecision := some "allow",
        matchedRuleId := some "builtin:allow-low-and-medium-risk",
        scannerSeverity := some "none", scannerReasonIds := [],
        outcome := "approved_non_interactive" }
      (by decide)).2.2 ⟨by decide, rfl⟩

/-- C7: In dry-run mode, for every plan of changes, the `executed` record
of filesystem mutations stays untouched (the execute step is never
reached), and the audit summary counter `changes_executed` is 0, even for
changes whose recorded outcome is an approved one. -/
theorem claim_C7_dry_run_never_executes :
    ∀ (cfg : AgentConfig) (plan : List (Change × ChangeEnv)) (st : AgentState),
      cfg.dryRun = true →
      (runPlan cfg st plan).executed = st.executed ∧
      (finalizeSummary cfg (runPlan cfg st plan)).changesExecuted = 0 := by
  intro cfg plan
  induction plan with
  | nil =>
      intro st hdry
      exact ⟨rfl, by simp [runPlan, finalizeSummary, hdry]⟩
  | cons hd rest ih =>
      intro st hdry
      rcases hd with ⟨ch, env⟩
      have hstep : (runStep cfg st ch env).executed = st.executed := by
        cases h2 : (previewAndApprove cfg st ch env).2 <;>
          simp [runStep, hdry, h2, previewAndApprove_executed]
      have := ih (runStep cfg st ch env) hdry
      exact ⟨by rw [runPlan]; rw [this.1, hstep], by rw [runPlan]; exact this.2⟩

/-- Witness for C7: a dry-run over a two-change plan (one of which is
approved non-interactively) performs no execution. -/
theorem claim_C7_dry_run_never_executes_witness :
    (runPlan
        { autoApproveLowRisk := false, dryRun := true, nonInteractive := true,
          failOnRisk := none }
        initialState
        [({ action := "create", path := "a.txt", description := "create a.txt" },
          { resolvedPath := some "/w/a.txt", riskLevel := .low,
            policy := { decision := .allow, matchedRuleId := none },
            scan := { reasonIds := [], maxSeverity := none },
            userApproves := false }),
         ({ action := "delete", path := "b.txt", description := "delete b.txt" },
          { resolvedPath := some "/w/b.txt", riskLevel := .high,
            policy := { decision := .requireApproval, matchedRuleId := none },
            scan := { reasonIds := [], maxSeverity := none },
            userApproves := true })]).executed = initialState.executed ∧
    (finalizeSummary
        { autoApproveLowRisk := false, dryRun := true, nonInteractive := true,
          failOnRisk := none }
        (runPlan
          { autoApproveLowRisk := false, dryRun := true, nonInteractive := true,
            failOnRisk := none }
          initialState
          [({ action := "create", path := "a.txt", description := "create a.txt" },
            { resolvedPath := some "/w/a.txt", riskLevel := .low,
              policy := { decision := .allow, matchedRuleId := none },
              scan := { reasonIds := [], maxSeverity := none },
              userApproves := false }),
           ({ action := "delete", path := "b.txt", description := "delete b.txt" },
            { resolvedPath := some "/w/b.txt", riskLevel := .high,
              policy := { decision := .requireApproval, matchedRuleId := none },
              scan := { reasonIds := [], maxSeverity := none },
              userApproves := true })])).changesExecuted = 0 :=
  claim_C7_dry_run_never_executes
    { autoApproveLowRisk := false, dryRun := true, nonInteractive := true,
      failOnRisk := none }
    [({ action := "create", path := "a.txt", description := "create a.txt" },
      { resolvedPath := some "/w/a.txt", riskLevel := .low,
        policy := { decision := .allow, matchedRuleId := none },
        scan := { reasonIds := [], maxSeverity := none },
        userApproves := false }),
     ({ action := "delete", path := "b.txt", description := "delete b.txt" },
      { resolvedPath := some "/w/b.txt", riskLevel := .high,
        policy := { decision := .requireApproval, matchedRuleId := none },
        scan := { reasonIds := [], maxSeverity := none },
        userApproves := true })]
    initialState rfl

lemma previewAndApprove_risk_mono (cfg : AgentConfig) (st : AgentState) (ch : Change)
    (env : ChangeEnv) :
    riskLeOpt st.maxRiskLevelSeen (previewAndApprove cfg st ch env).1.maxRiskLevelSeen := by
  rcases henv : env.resolvedPath with _ | p <;>
    simp only [previewAndApprove, henv] <;>
    (try split_ifs) <;>
    simp only [recordEvent_maxRiskLevelSeen, setRiskFailed_maxRiskLevelSeen] <;>
    first
      | exact riskLeOpt_noteRisk st _
      | exact riskLeOpt_refl _

lemma runStep_maxRiskLevelSeen (cfg : AgentConfig) (st : AgentState) (ch : Change)
    (env : ChangeEnv) :
    (runStep cfg st ch env).maxRiskLevelSeen =
      (previewAndApprove cfg st ch env).1.maxRiskLevelSeen := by
  cases h2 : (previewAndApprove cfg st ch env).2 <;> cases hd : cfg.dryRun <;>
    simp [runStep, h2, hd]

lemma diffGateStep_risk_mono (cfg : DiffGateConfig) (st : AgentState) (ch : Change)
    (env : DiffEnv) :
    riskLeOpt st.maxRiskLevelSeen (diffGateStep cfg st ch env).maxRiskLevelSeen := by
  rcases henv : env.resolvedPath with _ | p <;>
    simp only [diffGateStep, henv] <;>
    (try split_ifs) <;>
    simp only [recordEvent_maxRiskLevelSeen, setRiskFailed_maxRiskLevelSeen] <;>
    first
      | exact riskLeOpt_noteRisk st _
      | exact riskLeOpt_refl _

/-- C4: `max_risk_level_seen` is monotonic non-decreasing in severity
(LOW=0 < MEDIUM=1 < HIGH=2 < CRITICAL=3, with "nothing seen yet" at the
bottom) across each processed change and across whole sequential runs in
both engines, and it is never updated by a change that produced no risk
assessment — the `blocked_unknown_action` branch, the only one that skips
the analyzer, leaves it untouched. -/
theorem claim_C4_max_risk_monotone :
    (∀ (cfg : AgentConfig) (st : AgentState) (ch : Change) (env : ChangeEnv),
      riskLeOpt st.maxRiskLevelSeen (runStep cfg st ch env).maxRiskLevelSeen) ∧
    (∀ (cfg : DiffGateConfig) (st : AgentState) (ch : Change) (env : DiffEnv),
      riskLeOpt st.maxRiskLevelSeen (diffGateStep cfg st ch env).maxRiskLevelSeen) ∧
    (∀ (cfg : AgentConfig) (st : AgentState) (plan : List (Change × ChangeEnv)),
      riskLeOpt st.maxRiskLevelSeen (runPlan cfg st plan).maxRiskLevelSeen) ∧
    (∀ (cfg : DiffGateConfig) (st : AgentState) (plan : List (Change × DiffEnv)),
      riskLeOpt st.maxRiskLevelSeen (diffGateRun cfg st plan).maxRiskLevelSeen) ∧
    (∀ (cfg : AgentConfig) (st : AgentState) (ch : Change) (env : ChangeEnv) (p : String),
      env.resolvedPath = some p →
      ¬(ch.action = "create" ∨ ch.action = "modify" ∨ ch.action = "delete") →
      (runStep cfg st ch env).maxRiskLevelSeen = st.maxRiskLevelSeen) ∧
    (∀ (cfg : DiffGateConfig) (st : AgentState) (ch : Change) (env : DiffEnv) (p : String),
      env.resolvedPath = some p →
      ¬(ch.action = "create" ∨ ch.action = "modify" ∨ ch.action = "delete") →
      (diffGateStep cfg st ch env).maxRiskLevelSeen = st.maxRiskLevelSeen) := by
  have hstep : ∀ (cfg : AgentConfig) (st : AgentState) (ch : Change) (env : ChangeEnv),
      riskLeOpt st.maxRiskLevelSeen (runStep cfg st ch env).maxRiskLevelSeen := by
    intro cfg st ch env
    rw [runStep_maxRiskLevelSeen]
    exact previewAndApprove_risk_mono cfg st ch env
  refine ⟨hstep, diffGateStep_risk_mono, ?_, ?_, ?_, ?_⟩
  · intro cfg st plan
    induction plan generalizing st with
    | nil => exact riskLeOpt_refl _
    | cons hd rest ih =>
        rcases hd with ⟨ch, env⟩
        exact riskLeOpt_trans (hstep cfg st ch env) (ih (runStep cfg st ch env))
  · intro cfg st plan
    induction plan generalizing st with
    | nil => exact riskLeOpt_refl _
    | cons hd rest ih =>
        rcases hd with ⟨ch, env⟩
        exact riskLeOpt_trans (diffGateStep_risk_mono cfg st ch env)
          (ih (diffGateStep cfg st ch env))
  · intro cfg st ch env p henv hact
    simp only [runStep, previewAndApprove, henv]
    rw [if_neg hact]
    simp
  · intro cfg st ch env p henv hact
    simp only [diffGateStep, henv]
    rw [if_neg hact]
    simp

/-- Witness for C4: a concrete unknown-action change (`"rename"`, which the
collector never emits but the planner could) leaves the running maximum
unchanged. -/
theorem claim_C4_max_risk_monotone_witness :
    (runStep
        { autoApproveLowRisk := false, dryRun := false, nonInteractive := true,
          failOnRisk := none }
        initialState
        { action := "rename", path := "a.txt", description := "rename a.txt" }
        { resolvedPath := some "/w/a.txt", riskLevel := .high,
          policy := { decision := .allow, matchedRuleId := none },
          scan := { reasonIds := [], maxSeverity := none },
          userApproves := false }).maxRiskLevelSeen =
      initialState.maxRiskLevelSeen :=
  (claim_C4_max_risk_monotone.2.2.2.2.1
      { autoApproveLowRisk := false, dryRun := false, nonInteractive := true,
        failOnRisk := none }
      initialState
      { action := "rename", path := "a.txt", description := "rename a.txt" }
      { resolvedPath := some "/w/a.txt", riskLevel := .high,
        policy := { decision := .allow, matchedRuleId := none },
        scan := { reasonIds := [], maxSeverity := none },
        userApproves := false }
      "/w/a.txt" rfl (by decide))

/-- C9 counterexample: in the planner engine (`agent.py` lines 705-711 run
before the DENY check at line 763), a safely-resolved DENY change with
`fail_on_risk=LOW` and risk HIGH flips `risk_policy_failed` from false to
true even though its outcome is `blocked_by_policy_deny` — refuting the
claim that such a change leaves `risk_policy_failed` unchanged. -/
theorem claim_C9_counterexample_planner_sets_risk_flag_on_deny :
    initialState.riskPolicyFailed = false ∧
    (previewAndApprove
        { autoApproveLowRisk := false, dryRun := false, nonInteractive := true,
          failOnRisk := some .low }
        initialState
        { action := "modify", path := "secrets/config.env",
          description := "modify secrets/config.env" }
        { resolvedPath := some "/w/secrets/config.env", riskLevel := .high,
          policy := { decision := .deny,
                      matchedRuleId := some "builtin:deny-secrets-and-keys" },
          scan := { reasonIds := [], maxSeverity := none },
          userApproves := false }).1.riskPolicyFailed = true ∧
    (previewAndApprove
        { autoApproveLowRisk := false, dryRun := false, nonInteractive := true,
          failOnRisk := some .low }
        initialState
        { action := "modify", path := "secrets/config.env",
          description := "modify secrets/config.env" }
        { resolvedPath := some "/w/secrets/config.env", riskLevel := .high,
          policy := { decision := .deny,
                      matchedRuleId := some "builtin:deny-secrets-and-keys" },
          scan := { reasonIds := [], maxSeverity := none },
          userApproves := false }).1.events.map GovernanceEvent.outcome =
      ["blocked_by_policy_deny"] := by decide

/-- C9 amended: in the diff-gate engine, a safely-resolved known-action
DENY change leaves `risk_policy_failed` unchanged (the fail-on-risk check
is short-circuited by the DENY branch).  In the planner engine the
fail-on-risk flag update precedes the DENY check: a safely-resolved
known-action change sets `risk_policy_failed` to true exactly when a
`fail_on_risk` threshold is configured and severity(risk_level) ≥
severity(fail_on_risk), even when the policy decision is DENY. -/
theorem claim_C9_amended_risk_flag_frame :
    (∀ (cfg : DiffGateConfig) (st : AgentState) (ch : Change) (env : DiffEnv) (p : String),
      env.resolvedPath = some p →
      (ch.action = "create" ∨ ch.action = "modify" ∨ ch.action = "delete") →
      env.policy.decision = .deny →
      (diffGateStep cfg st ch env).riskPolicyFailed = st.riskPolicyFailed) ∧
    (∀ (cfg : AgentConfig) (st : AgentState) (ch : Change) (env : ChangeEnv) (p : String),
      env.resolvedPath = some p →
      (ch.action = "create" ∨ ch.action = "modify" ∨ ch.action = "delete") →
      (previewAndApprove cfg st ch env).1.riskPolicyFailed =
        (st.riskPolicyFailed || failTriggers cfg.failOnRisk env.riskLevel)) := by
  constructor
  · intro cfg st ch env p henv hact hdeny
    simp only [diffGateStep, henv]
    rw [if_pos hact, if_pos hdeny]
    simp
  · intro cfg st ch env p henv hact
    simp only [previewAndApprove, henv]
    rw [if_pos hact]
    split_ifs <;> simp

/-- Witness for C9 amended: the planner engine at the DENY change of the
counterexample — the flag becomes `false || true`. -/
theorem claim_C9_amended_risk_flag_frame_witness :
    (previewAndApprove
        { autoApproveLowRisk := false, dryRun := false, nonInteractive := true,
          failOnRisk := some .low }
        initialState
        { action := "modify", path := "secrets/config.env",
          description := "modify secrets/config.env" }
        { resolvedPath := some "/w/secrets/config.env", riskLevel := .high,
          policy := { decision := .deny,
                      matchedRuleId := some "builtin:deny-secrets-and-keys" },
          scan := { reasonIds := [], maxSeverity := none },
          userApproves := false }).1.riskPolicyFailed =
      (initialState.riskPolicyFailed || failTriggers (some .low) .high) :=
  claim_C9_amended_risk_flag_frame.2
    { autoApproveLowRisk := false, dryRun := false, nonInteractive := true,
      failOnRisk := some .low }
    initialState
    { action := "modify", path := "secrets/config.env",
      description := "modify secrets/config.env" }
    { resolvedPath := some "/w/secrets/config.env", riskLevel := .high,
      policy := { decision := .deny,
                  matchedRuleId := some "builtin:deny-secrets-and-keys" },
      scan := { reasonIds := [], maxSeverity := none },
      userApproves := false }
    "/w/secrets/config.env" rfl (by decide)

/-- C5: The path safety resolver returns `None` exactly when the stripped
raw path (Unicode `str.strip()`) is empty or `"."` or `"./"`, starts with
`"~"`, contains a NUL byte, matches a drive-letter (`"X:"`, with Python's
Unicode `isalpha` consumed as an oracle) or UNC (`"\\"`) prefix, is
absolute (POSIX: leading slash), or — after joining with the working root
and canonicalizing (the oracle `canon`) — does not resolve to a path
underneath the working root; otherwise it returns the resolved path,
which lies underneath the working root. -/
theorem claim_C5_path_resolver_characterization :
    ∀ (base : String) (canon : String → String) (isalpha : Char → Bool)
      (path : String),
      (resolvePathSafe base canon isalpha path = none ↔
        (strTrim path = "" ∨ strTrim path = "." ∨ strTrim path = "./" ∨
         strStartsWith (strTrim path) "~" = true ∨
         (strTrim path).data.contains (Char.ofNat 0) = true ∨
         isDriveLetter isalpha (strTrim path) = true ∨
         strStartsWith (strTrim path) "\\\\" = true ∨
         strStartsWith (strTrim path) "/" = true ∨
         underRoot base (canon (strTrim path)) = false)) ∧
      (∀ p, resolvePathSafe base canon isalpha path = some p →
        p = canon (strTrim path) ∧ underRoot base p = true) := by
  intro base canon isalpha path
  constructor
  · simp only [resolvePathSafe]
    split_ifs with h1 h2 h3 h4 h5 h6 h7
    all_goals simp_all
    all_goals tauto
  · intro p hp
    simp only [resolvePathSafe] at hp
    split_ifs at hp with h1 h2 h3 h4 h5 h6 h7
    all_goals simp_all

/-- Witness for C5: a concrete relative path under a concrete root
resolves, and the resolved path is under the root; the theorem applied at
that input. -/
theorem claim_C5_path_resolver_characterization_witness :
    "/w/sub/file.txt" = "/w/sub/file.txt" ∧ underRoot "/w" "/w/sub/file.txt" = true :=
  (claim_C5_path_resolver_characterization "/w" (fun _ => "/w/sub/file.txt")
      Char.isAlpha "sub/file.txt").2 "/w/sub/file.txt" (by decide)

/-- C8: With `compliance_mode=True`, the constructed agent has
`auto_approve_low_risk=False` even when the caller requested `True` (and
for any requested value), and the builtin default policy's rule list is
exactly the single DENY rule `builtin:deny-secrets-and-keys` — hence no
ALLOW rule — whose matched substrings are exactly the ten
secret/credential patterns. -/
theorem claim_C8_compliance_mode_strictness :
    (∀ requested : Bool, initAutoApproveLowRisk requested true = false) ∧
    initAutoApproveLowRisk true true = false ∧
    (builtinPolicyConfig true).rules = [denySecretsRule] ∧
    denySecretsRule.decision = .deny ∧
    denySecretsRule.id = "builtin:deny-secrets-and-keys" ∧
    denySecretsRule.targetContains =
      [".env", ".ssh", "id_rsa", "credentials", "secrets", "password", ".pem",
       "api_key", "secret_key", "access_key"] :=
  ⟨fun requested => by cases requested <;> rfl, rfl, rfl, rfl, rfl, rfl⟩

/-- C6: The diff change collector maps each git name-status line with
status code A to a create change, M to a modify change, D to a delete
change; every rename line (status starting with R, with old and new path
fields) expands to exactly two changes — delete(old path) immediately
followed by create(new path); and the per-line changes are concatenated in
line order, so the order of the diff output is preserved. -/
theorem claim_C6_name_status_mapping :
    (∀ (status p : String) (rest : List String), status.data.head? = some ('A') →
      parseParts (status :: p :: rest) = some [createChange p]) ∧
    (∀ (status p : String) (rest : List String), status.data.head? = some ('M') →
      parseParts (status :: p :: rest) = some [modifyChange p]) ∧
    (∀ (status p : String) (rest : List String), status.data.head? = some ('D') →
      parseParts (status :: p :: rest) = some [deleteChange p]) ∧
    (∀ (status oldPath newPath : String) (rest : List String),
      status.data.head? = some ('R') →
      parseParts (status :: oldPath :: newPath :: rest) =
        some [renameDeleteChange oldPath, renameCreateChange newPath]) ∧
    (∀ line : String, strTrim line ≠ "" →
      lineChanges line = parseParts (splitOnChar (Char.ofNat 9) line)) ∧
    (∀ (l : String) (ls : List String) (cs rest : List Change),
      lineChanges l = some cs → diffChanges ls = some rest →
      diffChanges (l :: ls) = some (cs ++ rest)) := by
  refine ⟨?_, ?_, ?_, ?_, ?_, ?_⟩
  · intro status p rest h
    simp [parseParts, h]
  · intro status p rest h
    simp [parseParts, h]
  · intro status p rest h
    simp [parseParts, h]
  · intro status oldPath newPath rest h
    simp [parseParts, h]
  · intro line h
    simp [lineChanges, h]
  · intro l ls cs rest hl hls
    simp [diffChanges, hl, hls]

/-- Witness for C6: a concrete rename line with score `R100` parses to the
delete/create pair, applied through the theorem. -/
theorem claim_C6_name_status_mapping_witness :
    parseParts ["R100", "src/old.py", "src/new.py"] =
      some [renameDeleteChange "src/old.py", renameCreateChange "src/new.py"] :=
  claim_C6_name_status_mapping.2.2.2.1 "R100" "src/old.py" "src/new.py" [] (by decide)

lemma eventsAppend (s₀ s : AgentState) (e : GovernanceEvent)
    (h : s.events = s₀.events) :
    ∃ x, (recordEvent s e).events = s₀.events ++ [x] :=
  ⟨e, by simp [h]⟩

lemma diffGateStep_appends (cfg : DiffGateConfig) (st : AgentState) (ch : Change)
    (env : DiffEnv) :
    ∃ e, (diffGateStep cfg st ch env).events = st.events ++ [e] := by
  rcases henv : env.resolvedPath with _ | p <;>
    simp only [diffGateStep, henv] <;>
    (try split_ifs) <;>
    exact eventsAppend st _ _ (by simp)

/-- C10 counterexample: `_read_content` is not exception-free — when
`read_text` raises `UnicodeDecodeError` and the `read_bytes` re-read
inside that handler raises `OSError`, the exception escapes the helper
(the sibling `except OSError` clause does not catch it), and on a concrete
modify change the run loop aborts instead of continuing — refuting the
claim that reading the content of a create/modify change never raises. -/
theorem claim_C10_counterexample_read_can_raise :
    readContent FileReadOutcome.undecodableThenOsError = none ∧
    diffGateStepE { failOnRisk := none } initialState
        { action := "modify", path := "data.bin", description := "modify data.bin" }
        { resolvedPath := some "/w/data.bin",
          readResult := FileReadOutcome.undecodableThenOsError,
          riskLevel := .low,
          policy := { decision := .allow, matchedRuleId := none },
          scan := { reasonIds := [], maxSeverity := none } } = none := by decide

/-- C10 amended: when `read_text` fails directly with an `OSError`,
`_read_content` catches it and returns the empty string — the unstated
silent fallback — so the change is still processed into exactly one
governance event with empty content instead of aborting the run; short
contents pass through unchanged, every returned content is at most
200,000 characters, and undecodable bytes are replacement-decoded.  The
helper is not exception-free, though: when the `read_bytes` re-read
inside the `UnicodeDecodeError` handler raises `OSError`, the exception
propagates and the run aborts before any event is recorded. -/
theorem claim_C10_amended_read_content_fallback :
    readContent .osError = some "" ∧
    (∀ t : String, t.data.length ≤ 200000 →
      readContent (.ok t) = some t ∧ readContent (.undecodable t) = some t) ∧
    (∀ (r : FileReadOutcome) (t : String), readContent r = some t →
      t.data.length ≤ 200000) ∧
    readContent .undecodableThenOsError = none ∧
    (∀ (cfg : DiffGateConfig) (st : AgentState) (ch : Change) (env : DiffEnv),
      env.readResult = .osError →
      ∃ st1 e, diffGateStepE cfg st ch env = some st1 ∧
        st1.events = st.events ++ [e]) ∧
    (∀ (cfg : DiffGateConfig) (st : AgentState) (ch : Change) (env : DiffEnv)
        (p : String),
      env.resolvedPath = some p →
      (ch.action = "create" ∨ ch.action = "modify") →
      env.readResult = .undecodableThenOsError →
      diffGateStepE cfg st ch env = none) := by
  refine ⟨rfl, ?_, ?_, rfl, ?_, ?_⟩
  · intro t h
    constructor <;> · simp only [readContent]; rw [if_neg (by omega)]
  · intro r t h
    cases r <;> simp only [readContent, Option.some.injEq] at h
    case ok s =>
      split_ifs at h with hh
      · subst h
        dsimp only
        simp only [List.length_take]
        omega
      · subst h
        omega
    case undecodable s =>
      split_ifs at h with hh
      · subst h
        dsimp only
        simp only [List.length_take]
        omega
      · subst h
        omega
    case undecodableThenOsError =>
      exact Option.noConfusion h
    case osError =>
      subst h
      decide
  · intro cfg st ch env hr
    have hsome : diffGateStepE cfg st ch env = some (diffGateStep cfg st ch env) := by
      rcases henv : env.resolvedPath with _ | p
      · simp [diffGateStepE, henv]
      · by_cases hact : (ch.action = "create" ∨ ch.action = "modify")
        · simp [diffGateStepE, henv, hact, hr, readContent]
        · simp [diffGateStepE, henv, hact]
    obtain ⟨e, he⟩ := diffGateStep_appends cfg st ch env
    exact ⟨_, e, hsome, he⟩
  · intro cfg st ch env p henv hact hr
    simp [diffGateStepE, henv, hact, hr, readContent]

/-- Witness for C10 amended: a short text passes through `_read_content`
unchanged, through the theorem. -/
theorem claim_C10_amended_read_content_fallback_witness :
    readContent (FileReadOutcome.ok "print(1)\n") = some "print(1)\n" ∧
    readContent (FileReadOutcome.undecodable "print(1)\n") = some "print(1)\n" :=
  claim_C10_amended_read_content_fallback.2.1 "print(1)\n" (by decide)

end SafeAgent
